import Mathlib

/-
Verification of the tapo Go library (github.com/insomniacslk/tapo), a client
for TP-Link Tapo smart plugs.  Byte strings are modelled as lists of naturals
below 256.  External cryptographic primitives (SHA-1, SHA-256, the AES-128
block cipher) are abstract function parameters; everything the repository
itself computes (PKCS#7 padding, CBC chaining, base64, hex, the XOR discovery
obfuscation, cookie scanning, the session state machines) is modelled
executably from the source.
-/

namespace Tapo

/-- A byte string: a list of naturals, each intended to be below 256. -/
abbrev Bytes := List Nat

/-- Byte representation of an ASCII string literal. -/
def strBytes (s : String) : Bytes := s.toList.map Char.toNat

/-- Pointwise XOR of two byte strings, truncated to the shorter one. -/
def xorBytes (a b : Bytes) : Bytes := List.zipWith Nat.xor a b

theorem xorBytes_length (a b : Bytes) :
    (xorBytes a b).length = min a.length b.length := by
  simp [xorBytes]

theorem xorBytes_xorBytes_cancel :
    ∀ (a b : Bytes), a.length = b.length → xorBytes (xorBytes a b) b = a := by
  intro a
  induction a with
  | nil => intro b _; simp [xorBytes]
  | cons x xs ih =>
    intro b hb
    cases b with
    | nil => simp at hb
    | cons y ys =>
      have hb' : xs.length = ys.length := by simpa using hb
      have hrec := ih ys hb'
      simp only [xorBytes] at hrec ⊢
      simp only [List.zipWith_cons_cons, hrec]
      exact congrArg (fun z => z :: xs) (Nat.xor_cancel_right y x)

theorem xorBytes_lt :
    ∀ (a b : Bytes), (∀ x ∈ a, x < 256) → (∀ x ∈ b, x < 256) →
      ∀ x ∈ xorBytes a b, x < 256 := by
  intro a
  induction a with
  | nil => intro b _ _ x hx; simp [xorBytes] at hx
  | cons v vs ih =>
    intro b ha hb x hx
    cases b with
    | nil => simp [xorBytes] at hx
    | cons w ws =>
      simp only [xorBytes, List.zipWith_cons_cons, List.mem_cons] at hx
      rcases hx with h | h
      · subst h
        have h1 : v < 2 ^ 8 := ha v (by simp)
        have h2 : w < 2 ^ 8 := hb w (by simp)
        exact Nat.xor_lt_two_pow h1 h2
      · exact ih ws (fun y hy => ha y (by simp [hy])) (fun y hy => hb y (by simp [hy])) x h

/-- PKCS#7 padding, from the go-pkcs7 dependency (Pad): append `n` copies of
the byte `n`, where `n = size - len mod size`. The block size used by the
repository is always 16, for which Pad never fails. -/
def pkcs7Pad (buf : Bytes) (size : Nat) : Bytes :=
  buf ++ List.replicate (size - buf.length % size) (size - buf.length % size)

/-- PKCS#7 unpadding, from the go-pkcs7 dependency (Unpad): the length must be
a positive multiple of the block size, the final byte names the pad length,
which must be between 1 and the block size, and every pad byte must equal it. -/
def pkcs7Unpad (padded : Bytes) (size : Nat) : Option Bytes :=
  if padded.length % size ≠ 0 ∨ padded.length = 0 then none
  else if padded.getD (padded.length - 1) 0 > size ∨
      padded.getD (padded.length - 1) 0 = 0 then none
  else if (padded.drop (padded.length - padded.getD (padded.length - 1) 0)).all
      (· = padded.getD (padded.length - 1) 0) then
    some (padded.take (padded.length - padded.getD (padded.length - 1) 0))
  else none

theorem pkcs7Pad_length (buf : Bytes) :
    (pkcs7Pad buf 16).length = buf.length + (16 - buf.length % 16) := by
  simp [pkcs7Pad]

theorem pkcs7Pad_length_mod (buf : Bytes) :
    (pkcs7Pad buf 16).length % 16 = 0 := by
  have h : buf.length % 16 < 16 := Nat.mod_lt _ (by norm_num)
  rw [pkcs7Pad_length]
  omega

theorem pkcs7Pad_bytes_lt (buf : Bytes) (h : ∀ x ∈ buf, x < 256) :
    ∀ x ∈ pkcs7Pad buf 16, x < 256 := by
  intro x hx
  simp only [pkcs7Pad, List.mem_append, List.mem_replicate] at hx
  rcases hx with hx | hx
  · exact h x hx
  · have : 16 - buf.length % 16 ≤ 16 := Nat.sub_le _ _
    omega

theorem pkcs7_roundtrip (buf : Bytes) :
    pkcs7Unpad (pkcs7Pad buf 16) 16 = some buf := by
  have hmod : buf.length % 16 < 16 := Nat.mod_lt _ (by norm_num)
  have hpos : 0 < 16 - buf.length % 16 := by omega
  have hle : 16 - buf.length % 16 ≤ 16 := by omega
  have hlen := pkcs7Pad_length buf
  have hlast : (pkcs7Pad buf 16).getD ((pkcs7Pad buf 16).length - 1) 0
      = 16 - buf.length % 16 := by
    rw [List.getD_eq_getElem?_getD, hlen]
    show ((buf ++ List.replicate _ _)[buf.length + (16 - buf.length % 16) - 1]?).getD 0 = _
    rw [List.getElem?_append_right (by omega)]
    rw [List.getElem?_replicate_of_lt (by omega)]
    rfl
  have hdrop : (pkcs7Pad buf 16).drop ((pkcs7Pad buf 16).length - (16 - buf.length % 16))
      = List.replicate (16 - buf.length % 16) (16 - buf.length % 16) := by
    rw [hlen]
    show (buf ++ List.replicate _ _).drop (buf.length + (16 - buf.length % 16)
      - (16 - buf.length % 16)) = _
    rw [Nat.add_sub_cancel, List.drop_left]
  have htake : (pkcs7Pad buf 16).take ((pkcs7Pad buf 16).length - (16 - buf.length % 16))
      = buf := by
    rw [hlen]
    show (buf ++ List.replicate _ _).take (buf.length + (16 - buf.length % 16)
      - (16 - buf.length % 16)) = _
    rw [Nat.add_sub_cancel, List.take_left]
  rw [pkcs7Unpad, if_neg (by rw [pkcs7Pad_length_mod, hlen]; omega), hlast,
    if_neg (by omega), hdrop, htake, if_pos (by simp [List.all_eq_true])]

/-- The rolling XOR obfuscation applied to the v1 discovery request in
Client.Discover: the key starts at 0xAB (DiscoverV1InitializationVector),
each step XORs the key with the next plaintext byte, and the result is both
the output byte and the next key. -/
def xorRoll (key : Nat) : Bytes → Bytes
  | [] => []
  | b :: rest => (key ^^^ b) :: xorRoll (key ^^^ b) rest

/-- The v1 discovery request obfuscation, key seeded at 0xAB = 171. -/
def discoverV1Obfuscate (l : Bytes) : Bytes := xorRoll 171 l

/-- Modelled from the spec: the inverse rolling XOR, whose key is the previous
obfuscated (input) byte rather than the previous output byte. -/
def xorRollDecode (key : Nat) : Bytes → Bytes
  | [] => []
  | b :: rest => (key ^^^ b) :: xorRollDecode b rest

/-- The v1 discovery deobfuscation, key seeded at 0xAB = 171. -/
def discoverV1Deobfuscate (l : Bytes) : Bytes := xorRollDecode 171 l

theorem xorRollDecode_xorRoll :
    ∀ (l : Bytes) (key : Nat), xorRollDecode key (xorRoll key l) = l := by
  intro l
  induction l with
  | nil => intro key; simp [xorRoll, xorRollDecode]
  | cons b rest ih =>
    intro key
    simp only [xorRoll, xorRollDecode, Nat.xor_cancel_left]
    exact congrArg _ (ih (key ^^^ b))

/-- Big-endian 4-byte encoding of a 32-bit sequence number. -/
def be32 (n : Nat) : Bytes :=
  [n / 16777216 % 256, n / 65536 % 256, n / 256 % 256, n % 256]

/-- The standard base64 alphabet used by encoding/base64 StdEncoding. -/
def b64Alphabet : Bytes :=
  strBytes "ABCDEFGHIJKLMNOPQRSTUVWXYZabcdefghijklmnopqrstuvwxyz0123456789+/"

/-- Character for a 6-bit group. -/
def b64Char (s : Nat) : Nat := b64Alphabet.getD s 65

/-- Inverse character lookup; none when the byte is not in the alphabet. -/
def b64DecChar (c : Nat) : Option Nat := b64Alphabet.findIdx? (· = c)

/-- Model of base64.StdEncoding.EncodeToString over byte lists, with the
standard trailing padding with the pad character 61. -/
def b64Encode : Bytes → Bytes
  | [] => []
  | [a] => [b64Char (a / 4), b64Char (a % 4 * 16), 61, 61]
  | [a, b] => [b64Char (a / 4), b64Char (a % 4 * 16 + b / 16), b64Char (b % 16 * 4), 61]
  | a :: b :: c :: rest =>
      b64Char (a / 4) :: b64Char (a % 4 * 16 + b / 16) ::
        b64Char (b % 16 * 4 + c / 64) :: b64Char (c % 64) :: b64Encode rest

/-- Model of base64.StdEncoding.DecodeString: none on any malformed input. -/
def b64Decode : Bytes → Option Bytes
  | [] => some []
  | c1 :: c2 :: c3 :: c4 :: rest =>
    match b64DecChar c1, b64DecChar c2 with
    | some s1, some s2 =>
      if c3 = 61 ∧ c4 = 61 ∧ rest = [] then
        some [s1 * 4 + s2 / 16]
      else
        match b64DecChar c3 with
        | some s3 =>
          if c4 = 61 ∧ rest = [] then
            some [s1 * 4 + s2 / 16, s2 % 16 * 16 + s3 / 4]
          else
            match b64DecChar c4 with
            | some s4 =>
              (b64Decode rest).map
                (fun t => (s1 * 4 + s2 / 16) :: (s2 % 16 * 16 + s3 / 4) ::
                  (s3 % 4 * 64 + s4) :: t)
            | none => none
        | none => none
    | _, _ => none
  | _ => none

theorem b64DecChar_b64Char : ∀ s, s < 64 → b64DecChar (b64Char s) = some s := by
  decide

theorem b64Char_ne_pad : ∀ s, s < 64 → b64Char s ≠ 61 := by
  decide

theorem b64Char_ne_cr : ∀ s, s < 64 → b64Char s ≠ 13 := by
  decide

theorem b64_roundtrip :
    ∀ l : Bytes, (∀ b ∈ l, b < 256) → b64Decode (b64Encode l) = some l := by
  intro l
  induction l using b64Encode.induct with
  | case1 => intro _; rfl
  | case2 a =>
    intro hb
    have ha : a < 256 := hb a (by simp)
    have h1 : a / 4 < 64 := by omega
    have h2 : a % 4 * 16 < 64 := by omega
    simp only [b64Encode, b64Decode, b64DecChar_b64Char _ h1, b64DecChar_b64Char _ h2]
    rw [if_pos (by simp)]
    have e1 : a % 4 * 16 / 16 = a % 4 := Nat.mul_div_cancel _ (by norm_num)
    have f1 : a / 4 * 4 + a % 4 = a := by omega
    rw [e1, f1]
  | case3 a b =>
    intro hb
    have ha : a < 256 := hb a (by simp)
    have hbb : b < 256 := hb b (by simp)
    have h1 : a / 4 < 64 := by omega
    have h2 : a % 4 * 16 + b / 16 < 64 := by omega
    have h3 : b % 16 * 4 < 64 := by omega
    simp only [b64Encode, b64Decode, b64DecChar_b64Char _ h1, b64DecChar_b64Char _ h2]
    rw [if_neg (by
      intro hcon
      exact b64Char_ne_pad _ h3 hcon.1)]
    simp only [b64DecChar_b64Char _ h3]
    rw [if_pos (by simp)]
    have e1 : (a % 4 * 16 + b / 16) / 16 = a % 4 := by
      rw [Nat.mul_comm (a % 4) 16, Nat.mul_add_div (by norm_num)]
      have : b / 16 < 16 := by omega
      omega
    have e2 : (a % 4 * 16 + b / 16) % 16 = b / 16 := by
      rw [Nat.mul_comm (a % 4) 16, Nat.mul_add_mod]
      omega
    have e3 : b % 16 * 4 / 4 = b % 16 := Nat.mul_div_cancel _ (by norm_num)
    have f1 : a / 4 * 4 + a % 4 = a := by omega
    have f2 : b / 16 * 16 + b % 16 = b := by omega
    rw [e1, e2, e3, f1, f2]
  | case4 a b c rest ih =>
    intro hb
    have ha : a < 256 := hb a (by simp)
    have hbb : b < 256 := hb b (by simp)
    have hc : c < 256 := hb c (by simp)
    have h1 : a / 4 < 64 := by omega
    have h2 : a % 4 * 16 + b / 16 < 64 := by omega
    have h3 : b % 16 * 4 + c / 64 < 64 := by omega
    have h4 : c % 64 < 64 := by omega
    have hrest := ih (fun x hx => hb x (by simp [hx]))
    simp only [b64Encode, b64Decode, b64DecChar_b64Char _ h1, b64DecChar_b64Char _ h2]
    rw [if_neg (by
      intro hcon
      exact b64Char_ne_pad _ h3 hcon.1)]
    simp only [b64DecChar_b64Char _ h3]
    rw [if_neg (by
      intro hcon
      exact b64Char_ne_pad _ h4 hcon.1)]
    simp only [b64DecChar_b64Char _ h4, hrest, Option.map_some]
    have e1 : (a % 4 * 16 + b / 16) / 16 = a % 4 := by
      rw [Nat.mul_comm (a % 4) 16, Nat.mul_add_div (by norm_num)]
      have : b / 16 < 16 := by omega
      omega
    have e2 : (a % 4 * 16 + b / 16) % 16 = b / 16 := by
      rw [Nat.mul_comm (a % 4) 16, Nat.mul_add_mod]
      omega
    have e3 : (b % 16 * 4 + c / 64) / 4 = b % 16 := by
      rw [Nat.mul_comm (b % 16) 4, Nat.mul_add_div (by norm_num)]
      have : c / 64 < 4 := by omega
      omega
    have e4 : (b % 16 * 4 + c / 64) % 4 = c / 64 := by
      rw [Nat.mul_comm (b % 16) 4, Nat.mul_add_mod]
      omega
    have f1 : a / 4 * 4 + a % 4 = a := by omega
    have f2 : b / 16 * 16 + b % 16 = b := by omega
    have f3 : c / 64 * 64 + c % 64 = c := by omega
    rw [e1, e2, e3, e4, f1, f2, f3]
    rfl

theorem b64Encode_no_cr :
    ∀ l : Bytes, (∀ b ∈ l, b < 256) → ∀ x ∈ b64Encode l, x ≠ 13 := by
  intro l
  induction l using b64Encode.induct with
  | case1 => intro _ x hx; simp [b64Encode] at hx
  | case2 a =>
    intro hb x hx
    have ha : a < 256 := hb a (by simp)
    simp only [b64Encode, List.mem_cons, List.not_mem_nil, or_false] at hx
    rcases hx with h | h | h | h <;> subst h
    · exact b64Char_ne_cr _ (by omega)
    · exact b64Char_ne_cr _ (by omega)
    · decide
    · decide
  | case3 a b =>
    intro hb x hx
    have ha : a < 256 := hb a (by simp)
    have hbb : b < 256 := hb b (by simp)
    simp only [b64Encode, List.mem_cons, List.not_mem_nil, or_false] at hx
    rcases hx with h | h | h | h <;> subst h
    · exact b64Char_ne_cr _ (by omega)
    · exact b64Char_ne_cr _ (by omega)
    · exact b64Char_ne_cr _ (by omega)
    · decide
  | case4 a b c rest ih =>
    intro hb x hx
    have ha : a < 256 := hb a (by simp)
    have hbb : b < 256 := hb b (by simp)
    have hc : c < 256 := hb c (by simp)
    simp only [b64Encode, List.mem_cons] at hx
    rcases hx with h | h | h | h | h
    · subst h; exact b64Char_ne_cr _ (by omega)
    · subst h; exact b64Char_ne_cr _ (by omega)
    · subst h; exact b64Char_ne_cr _ (by omega)
    · subst h; exact b64Char_ne_cr _ (by omega)
    · exact ih (fun y hy => hb y (by simp [hy])) x h

/-- Model of the strings.Replace call removing every CRLF pair, as applied to
the base64-encoded Passthrough request. -/
def removeCRLF : Bytes → Bytes
  | [] => []
  | [x] => [x]
  | x :: y :: rest =>
    if x = 13 ∧ y = 10 then removeCRLF rest else x :: removeCRLF (y :: rest)

theorem removeCRLF_of_no_cr :
    ∀ l : Bytes, (∀ x ∈ l, x ≠ 13) → removeCRLF l = l := by
  intro l
  induction l with
  | nil => intro _; rfl
  | cons x rest ih =>
    intro h
    cases rest with
    | nil => rfl
    | cons y rest2 =>
      rw [removeCRLF, if_neg (by
        intro hcon
        exact h x (by simp) hcon.1)]
      rw [ih (fun z hz => h z (by simp [List.mem_cons] at hz ⊢; tauto))]

/-- Go hex digit table, lowercase, from encoding/hex. -/
def hexDigit (n : Nat) : Nat := (strBytes "0123456789abcdef").getD n 48

/-- Model of hex.Encode: lowercase hex, high nibble first. -/
def hexLower : Bytes → Bytes
  | [] => []
  | b :: rest => hexDigit (b / 16) :: hexDigit (b % 16) :: hexLower rest

/-- AES-CBC encryption as performed by cipher.NewCBCEncrypter followed by
CryptBlocks, over an abstract 16-byte block cipher E (representing AES-128
with the session key): each plaintext block is XORed with the previous
ciphertext block (initially the IV) and then enciphered. -/
def cbcEncrypt (E : Bytes → Bytes) (iv l : Bytes) : Bytes :=
  if h : l = [] then []
  else
    E (xorBytes (l.take 16) iv) ++
      cbcEncrypt E (E (xorBytes (l.take 16) iv)) (l.drop 16)
termination_by l.length
decreasing_by
  have : 0 < l.length := List.length_pos.mpr h
  simp only [List.length_drop]
  omega

/-- AES-CBC decryption as performed by cipher.NewCBCDecrypter followed by
CryptBlocks, over the abstract inverse block cipher D: each ciphertext block
is deciphered and XORed with the previous ciphertext block (initially the
IV). -/
def cbcDecrypt (D : Bytes → Bytes) (iv l : Bytes) : Bytes :=
  if h : l = [] then []
  else
    xorBytes (D (l.take 16)) iv ++ cbcDecrypt D (l.take 16) (l.drop 16)
termination_by l.length
decreasing_by
  have : 0 < l.length := List.length_pos.mpr h
  simp only [List.length_drop]
  omega

theorem cbcEncrypt_bytes_lt_aux (E : Bytes → Bytes)
    (hElen : ∀ b : Bytes, b.length = 16 → (∀ x ∈ b, x < 256) → (E b).length = 16)
    (hEbytes : ∀ b : Bytes, b.length = 16 → (∀ x ∈ b, x < 256) → ∀ x ∈ E b, x < 256) :
    ∀ (n : Nat) (l iv : Bytes), l.length ≤ n → l.length % 16 = 0 →
      (∀ x ∈ l, x < 256) → iv.length = 16 → (∀ x ∈ iv, x < 256) →
      ∀ x ∈ cbcEncrypt E iv l, x < 256 := by
  intro n
  induction n with
  | zero =>
    intro l iv hn _ _ _ _ x hx
    have hl : l = [] := List.length_eq_zero.mp (Nat.le_zero.mp hn)
    subst hl
    rw [cbcEncrypt] at hx
    simp at hx
  | succ n ih =>
    intro l iv hn hmod hl hivlen hiv x hx
    by_cases hnil : l = []
    · subst hnil
      rw [cbcEncrypt] at hx
      simp at hx
    · have hlpos : 0 < l.length := List.length_pos.mpr hnil
      have hl16 : 16 ≤ l.length := by omega
      have hp1len : (l.take 16).length = 16 := by
        simp [List.length_take]
        omega
      have hp1b : ∀ y ∈ l.take 16, y < 256 := fun y hy => hl y (List.mem_of_mem_take hy)
      have hx1len : (xorBytes (l.take 16) iv).length = 16 := by
        rw [xorBytes_length, hp1len, hivlen]
        exact Nat.min_self 16
      have hx1b : ∀ y ∈ xorBytes (l.take 16) iv, y < 256 := xorBytes_lt _ _ hp1b hiv
      have hclen : (E (xorBytes (l.take 16) iv)).length = 16 := hElen _ hx1len hx1b
      have hcb : ∀ y ∈ E (xorBytes (l.take 16) iv), y < 256 := hEbytes _ hx1len hx1b
      rw [cbcEncrypt] at hx
      rw [dif_neg hnil] at hx
      rcases List.mem_append.mp hx with hcase | hcase
      · exact hcb x hcase
      · exact ih (l.drop 16) _ (by simp [List.length_drop]; omega)
          (by simp [List.length_drop]; omega)
          (fun y hy => hl y (List.mem_of_mem_drop hy)) hclen hcb x hcase

theorem cbcEncrypt_bytes_lt (E : Bytes → Bytes)
    (hElen : ∀ b : Bytes, b.length = 16 → (∀ x ∈ b, x < 256) → (E b).length = 16)
    (hEbytes : ∀ b : Bytes, b.length = 16 → (∀ x ∈ b, x < 256) → ∀ x ∈ E b, x < 256)
    (l iv : Bytes) (hmod : l.length % 16 = 0) (hl : ∀ x ∈ l, x < 256)
    (hivlen : iv.length = 16) (hiv : ∀ x ∈ iv, x < 256) :
    ∀ x ∈ cbcEncrypt E iv l, x < 256 :=
  cbcEncrypt_bytes_lt_aux E hElen hEbytes l.length l iv le_rfl hmod hl hivlen hiv

theorem cbc_roundtrip_aux (E D : Bytes → Bytes)
    (hED : ∀ b : Bytes, b.length = 16 → (∀ x ∈ b, x < 256) → D (E b) = b)
    (hElen : ∀ b : Bytes, b.length = 16 → (∀ x ∈ b, x < 256) → (E b).length = 16)
    (hEbytes : ∀ b : Bytes, b.length = 16 → (∀ x ∈ b, x < 256) → ∀ x ∈ E b, x < 256) :
    ∀ (n : Nat) (l iv : Bytes), l.length ≤ n → l.length % 16 = 0 →
      (∀ x ∈ l, x < 256) → iv.length = 16 → (∀ x ∈ iv, x < 256) →
      cbcDecrypt D iv (cbcEncrypt E iv l) = l := by
  intro n
  induction n with
  | zero =>
    intro l iv hn _ _ _ _
    have hl : l = [] := List.length_eq_zero.mp (Nat.le_zero.mp hn)
    subst hl
    rw [cbcEncrypt, cbcDecrypt]
    simp
  | succ n ih =>
    intro l iv hn hmod hl hivlen hiv
    by_cases hnil : l = []
    · subst hnil
      rw [cbcEncrypt, cbcDecrypt]
      simp
    · have hlpos : 0 < l.length := List.length_pos.mpr hnil
      have hl16 : 16 ≤ l.length := by omega
      have hp1len : (l.take 16).length = 16 := by
        simp [List.length_take]
        omega
      have hp1b : ∀ y ∈ l.take 16, y < 256 := fun y hy => hl y (List.mem_of_mem_take hy)
      have hx1len : (xorBytes (l.take 16) iv).length = 16 := by
        rw [xorBytes_length, hp1len, hivlen]
        exact Nat.min_self 16
      have hx1b : ∀ y ∈ xorBytes (l.take 16) iv, y < 256 := xorBytes_lt _ _ hp1b hiv
      have hclen : (E (xorBytes (l.take 16) iv)).length = 16 := hElen _ hx1len hx1b
      have hcb : ∀ y ∈ E (xorBytes (l.take 16) iv), y < 256 := hEbytes _ hx1len hx1b
      have hcnil : E (xorBytes (l.take 16) iv) ≠ [] := by
        intro hcon
        rw [hcon] at hclen
        simp at hclen
      rw [cbcEncrypt, dif_neg hnil, cbcDecrypt,
        dif_neg (by
          intro hcon
          exact hcnil (List.append_eq_nil.mp hcon).1)]
      rw [List.take_left' hclen, List.drop_left' hclen]
      rw [hED _ hx1len hx1b, xorBytes_xorBytes_cancel _ _ (by rw [hp1len, hivlen])]
      rw [ih (l.drop 16) _ (by simp [List.length_drop]; omega)
        (by simp [List.length_drop]; omega)
        (fun y hy => hl y (List.mem_of_mem_drop hy)) hclen hcb]
      exact List.take_append_drop 16 l

theorem cbc_roundtrip (E D : Bytes → Bytes)
    (hED : ∀ b : Bytes, b.length = 16 → (∀ x ∈ b, x < 256) → D (E b) = b)
    (hElen : ∀ b : Bytes, b.length = 16 → (∀ x ∈ b, x < 256) → (E b).length = 16)
    (hEbytes : ∀ b : Bytes, b.length = 16 → (∀ x ∈ b, x < 256) → ∀ x ∈ E b, x < 256)
    (l iv : Bytes) (hmod : l.length % 16 = 0) (hl : ∀ x ∈ l, x < 256)
    (hivlen : iv.length = 16) (hiv : ∀ x ∈ iv, x < 256) :
    cbcDecrypt D iv (cbcEncrypt E iv l) = l :=
  cbc_roundtrip_aux E D hED hElen hEbytes l.length l iv le_rfl hmod hl hivlen hiv

/-- An HTTP cookie as produced by parseBrokenCookies: a name and a value. -/
structure Cookie where
  name : Bytes
  value : Bytes
deriving DecidableEq

/-- The KLAP session state, from the KlapSession struct in klap_protocol.go.
The expiry is an absolute time in seconds. -/
structure KlapSession where
  SessionID : Bytes
  Expiry : Nat
  LocalSeed : Bytes
  RemoteSeed : Bytes
  LocalAuthHash : Bytes
deriving DecidableEq

/-- Model of strconv.ParseInt base 10 on the nonnegative decimal strings the
device sends in the TIMEOUT cookie: none when empty or any character is not a
digit. -/
def parseDec (l : Bytes) : Option Nat :=
  if l = [] then none
  else if l.all (fun c => 48 ≤ c ∧ c ≤ 57) then
    some (l.foldl (fun acc c => acc * 10 + (c - 48)) 0)
  else none

/-- The cookie loop of KlapSession.handshake1: remember the latest
TP_SESSIONID value, and on TIMEOUT parse the value as seconds and save the
expiry time; a malformed TIMEOUT aborts with an error. `now` is the current
time in seconds. -/
def scanCookies (now : Nat) : List Cookie → Bytes × Nat → Except String (Bytes × Nat)
  | [], acc => .ok acc
  | c :: rest, (sid, exp) =>
    if c.name = strBytes "TP_SESSIONID" then scanCookies now rest (c.value, exp)
    else if c.name = strBytes "TIMEOUT" then
      match parseDec c.value with
      | none => .error "invalid timeout string"
      | some t => scanCookies now rest (sid, now + t)
    else scanCookies now rest (sid, exp)

/-- Model of KlapSession.handshake1.  The network interaction is summarised by
its observable result: `resp` is none on a transport or read error, otherwise
the response body together with the parsed Set-Cookie pairs.  The fresh random
`localSeed` is a parameter.  SHA-1 and SHA-256 are abstract.  The function
returns the updated session and an optional error, mirroring the mutation
discipline of the Go method: the receiver fields are assigned only on the
success path after the server hash has been verified. -/
def handshake1 (sha1 sha256 : Bytes → Bytes) (s : KlapSession)
    (username password localSeed : Bytes)
    (resp : Option (Bytes × List Cookie)) (now : Nat) :
    KlapSession × Option String :=
  match resp with
  | none => (s, some "http post failed")
  | some (body, cookies) =>
    match scanCookies now cookies (strBytes "", 0) with
    | .error e => (s, some e)
    | .ok (sessionID, expiry) =>
      if sha256 (localSeed ++ body.take 16 ++ sha256 (sha1 username ++ sha1 password))
          = body.drop 16 then
        ({ SessionID := sessionID, Expiry := expiry, LocalSeed := localSeed,
           RemoteSeed := body.take 16,
           LocalAuthHash := sha256 (sha1 username ++ sha1 password) }, none)
      else (s, some "authentication failed")

/-- Modelled from the spec: the KLAP per-request AES key, the first 16 bytes
of SHA-256 of the label lsk followed by the seeds and the auth hash.  The
KlapSession.encrypt primitive in klap_protocol.go is a stub returning an
error, so this and the following definitions follow the key schedule in the
specification. -/
def klapKey (sha256 : Bytes → Bytes) (ls rs lah : Bytes) : Bytes :=
  (sha256 (strBytes "lsk" ++ ls ++ rs ++ lah)).take 16

/-- Modelled from the spec: the 32-byte KLAP IV seed, SHA-256 of the label iv
followed by the seeds and the auth hash. -/
def klapIvSeed (sha256 : Bytes → Bytes) (ls rs lah : Bytes) : Bytes :=
  sha256 (strBytes "iv" ++ ls ++ rs ++ lah)

/-- Modelled from the spec: the effective IV for sequence number n, the
12-byte constant IV head followed by the big-endian sequence number. -/
def klapIvFor (sha256 : Bytes → Bytes) (ls rs lah : Bytes) (n : Nat) : Bytes :=
  (klapIvSeed sha256 ls rs lah).take 12 ++ be32 n

/-- Modelled from the spec: the 28-byte signature key, a SHA-256 over the
label ldk followed by the seeds and the auth hash. -/
def klapSigKey (sha256 : Bytes → Bytes) (ls rs lah : Bytes) : Bytes :=
  (sha256 (strBytes "ldk" ++ ls ++ rs ++ lah)).take 28

/-- Modelled from the spec: the KLAP request body for payload P at sequence
number n, the tag T = SHA-256(sig ‖ be32 n ‖ C) followed by the ciphertext C,
where C is the AES-CBC encryption of the PKCS#7-padded payload under the
derived key (abstracted by the block cipher E) and the sequence-indexed IV. -/
def klapEncrypt (sha256 E : Bytes → Bytes) (ls rs lah : Bytes) (n : Nat)
    (payload : Bytes) : Bytes :=
  sha256 (klapSigKey sha256 ls rs lah ++ be32 n ++
      cbcEncrypt E (klapIvFor sha256 ls rs lah n) (pkcs7Pad payload 16)) ++
    cbcEncrypt E (klapIvFor sha256 ls rs lah n) (pkcs7Pad payload 16)

/-- Modelled from the spec: KLAP response decryption for sequence number n.
The body splits as a 32-byte tag followed by the ciphertext; a tag mismatch is
a fatal framing error, otherwise the ciphertext is AES-CBC decrypted with the
same key and sequence-indexed IV (abstracted by the block cipher D) and
PKCS#7-unpadded. -/
def klapDecrypt (sha256 D : Bytes → Bytes) (ls rs lah : Bytes) (n : Nat)
    (body : Bytes) : Option Bytes :=
  if sha256 (klapSigKey sha256 ls rs lah ++ be32 n ++ body.drop 32) = body.take 32 then
    pkcs7Unpad (cbcDecrypt D (klapIvFor sha256 ls rs lah n) (body.drop 32)) 16
  else none

/-- Model of KlapSession.Request in klap_protocol.go: encrypt the payload,
POST it, require HTTP 200, decrypt the response body.  The device is an
oracle from the posted body to an optional HTTP status and response body;
none is a transport error.  The encrypt and decrypt primitives are the
spec-modelled ones above (the repository ships them stubbed). -/
def KlapSession.RequestM (sha256 E D : Bytes → Bytes) (ls rs lah : Bytes)
    (n : Nat) (payload : Bytes)
    (device : Bytes → Option (Nat × Bytes)) : Except String Bytes :=
  match device (klapEncrypt sha256 E ls rs lah n payload) with
  | none => .error "http POST failed"
  | some (status, body) =>
    if status ≠ 200 then .error "expected 200 OK"
    else
      match klapDecrypt sha256 D ls rs lah n body with
      | none => .error "failed to decrypt payload"
      | some d => .ok d

/-- The Passthrough session state, from the PassthroughSession struct. -/
structure PassthroughSession where
  Key : Bytes
  IV : Bytes
  ID : Bytes
deriving DecidableEq

/-- The cookie loop of PassthroughSession.Handshake: the first TP_SESSIONID
cookie wins (the Go loop breaks at the first match). -/
def findSessionCookie : List Cookie → Option Bytes
  | [] => none
  | c :: rest =>
    if c.name = strBytes "TP_SESSIONID" then some c.value
    else findSessionCookie rest

/-- Model of the tail of PassthroughSession.Handshake, from the point where
the RSA-PKCS#1 v1.5 decryption of the base64-decoded result key has produced
`sessionKey`: the plaintext must be exactly 32 bytes, a TP_SESSIONID cookie
must be present, and then the first 16 bytes become the AES key and the last
16 the IV, with the verbatim cookie pair as the routing cookie. -/
def PassthroughSession.handshakeFinish (s : PassthroughSession)
    (sessionKey : Bytes) (cookies : List Cookie) :
    PassthroughSession × Option String :=
  if sessionKey.length ≠ 32 then
    (s, some "session key length is not 32 bytes")
  else
    match findSessionCookie cookies with
    | none => (s, some "no TP_SESSIONID cookie found in HTTP response")
    | some v =>
      ({ Key := sessionKey.take 16,
         ID := strBytes "TP_SESSIONID=" ++ v,
         IV := sessionKey.drop 16 }, none)

/-- Model of PassthroughSession.encryptRequest: AES-CBC encrypt the
PKCS#7-padded request with the session key (abstracted by the block cipher E)
and IV, base64-encode, and strip CRLF pairs. -/
def PassthroughSession.encryptRequest (E : Bytes → Bytes)
    (s : PassthroughSession) (req : Bytes) : Bytes :=
  removeCRLF (b64Encode (cbcEncrypt E s.IV (pkcs7Pad req 16)))

/-- Model of PassthroughSession.decryptResponse: base64-decode, AES-CBC
decrypt with the session key (abstracted by the block cipher D) and IV, and
PKCS#7-unpad; none on a decode or unpad failure. -/
def PassthroughSession.decryptResponse (D : Bytes → Bytes)
    (s : PassthroughSession) (resp : Bytes) : Option Bytes :=
  (b64Decode resp).bind (fun enc => pkcs7Unpad (cbcDecrypt D s.IV enc) 16)

/-- The login_device request, from NewLoginDeviceRequest in methods.go. -/
structure LoginDeviceRequest where
  Method : Bytes
  RequestTimeMils : Nat
  Username : Bytes
  Password : Bytes
deriving DecidableEq

/-- Model of NewLoginDeviceRequest: warn when the password exceeds 8
characters (the request is still built with the full password), set the
username field to the base64 of the lowercase hex of SHA-1 of the username,
and the password field to the base64 of the raw password.  SHA-1 is abstract;
`now` stands for time.Now().UnixMilli(). -/
def NewLoginDeviceRequest (sha1 : Bytes → Bytes) (username password : Bytes)
    (now : Nat) : Bool × LoginDeviceRequest :=
  (decide (password.length > 8),
   { Method := strBytes "login_device",
     RequestTimeMils := now,
     Username := b64Encode (hexLower (sha1 username)),
     Password := b64Encode password })

/-- The TapoStatus Error strings, from the newest plug source file. -/
def TapoStatus.errString (te : Int) : String :=
  if te = 0 then "Success"
  else if te = -1010 then "Invalid Public Key Length"
  else if te = -1012 then "Invalid terminalUUID"
  else if te = -1501 then "Invalid Request or Credentials"
  else if te = 1002 then "Incorrect Request"
  else if te = -1003 then "JSON formatting error"
  else if te = 1003 then "Communication error"
  else if te = 9999 then "Session timeout"
  else "Unknown error: " ++ toString te

/-- An untyped device response, from the UntypedResponse struct: the envelope
error code and the optional raw result, whose JSON representation is the
abstract type J. -/
structure UntypedResponse (J : Type) where
  ErrorCode : Int
  Result : Option J
deriving DecidableEq

/-- One Session.Request observation: a transport error or a parsed response. -/
abbrev DevResp (J : Type) := Except String (UntypedResponse J)

/-- A session value as stored in Plug.session: a KLAP session, or a
Passthrough session together with its login token. -/
inductive SessionV where
  | klap : KlapSession → SessionV
  | passthrough : PassthroughSession → Bytes → SessionV
deriving DecidableEq

/-- The plug facade state, from the Plug struct in the newest plug source
file: the chosen session (none before a successful handshake) and the two
retry counters set by the plug options. -/
structure Plug where
  session : Option SessionV
  retriesOnForbidden : Nat
  retriesOnCommunicationError : Nat
deriving DecidableEq

/-- NewPlug before options are applied: no session, both counters zero. -/
def NewPlug : Plug :=
  { session := none, retriesOnForbidden := 0, retriesOnCommunicationError := 0 }

/-- The OptionRetryOnForbidden plug option. -/
def OptionRetryOnForbidden (times : Nat) (p : Plug) : Plug :=
  { p with retriesOnForbidden := times }

/-- The OptionRetryOnCommunicationError plug option. -/
def OptionRetryOnCommunicationError (times : Nat) (p : Plug) : Plug :=
  { p with retriesOnCommunicationError := times }

/-- The fields of the DeviceInfo result that the facade logic touches: the
base64-encoded SSID and nickname, the on flag, and the computed decoded
fields. -/
structure DeviceInfo where
  SSID : Bytes
  Nickname : Bytes
  DeviceON : Bool
  DecodedSSID : Bytes
  DecodedNickname : Bytes
deriving DecidableEq

/-- The Go zero value of DeviceInfo, used when a response has no result. -/
def DeviceInfo.zero : DeviceInfo :=
  { SSID := [], Nickname := [], DeviceON := false,
    DecodedSSID := [], DecodedNickname := [] }

/-- Model of Plug.GetDeviceInfo from the newest plug source file: fail when
no session is established, issue one request through the session (the device
is a response script; the second component counts issued requests), copy the
envelope error code, unmarshal the result when present, reject a non-zero
status, and base64-decode the SSID and nickname into the computed fields.
No retry of any kind is performed. -/
def Plug.GetDeviceInfoM {J : Type} (unmarshalInfo : J → Option DeviceInfo)
    (p : Plug) (script : List (DevResp J)) : Except String DeviceInfo × Nat :=
  match p.session with
  | none => (.error "not logged in", 0)
  | some _ =>
    match script.headD (.error "no response") with
    | .error e => (.error ("request failed: " ++ e), 1)
    | .ok resp =>
      match (match resp.Result with
             | none => Except.ok DeviceInfo.zero
             | some j =>
               match unmarshalInfo j with
               | none => Except.error "failed to unmarshal JSON response"
               | some i => Except.ok i) with
      | .error e => (.error e, 1)
      | .ok info =>
        if resp.ErrorCode ≠ 0 then
          (.error ("request failed: " ++ TapoStatus.errString resp.ErrorCode), 1)
        else
          match b64Decode info.SSID with
          | none => (.error "failed to base64-decode SSID", 1)
          | some dssid =>
            match b64Decode info.Nickname with
            | none => (.error "failed to base64-decode Nickname", 1)
            | some dnick =>
              (.ok { info with DecodedSSID := dssid, DecodedNickname := dnick }, 1)

/-- Model of Plug.SetDeviceInfo: fail when no session is established,
issue one request, unmarshal the result when present, and reject a non-zero
status.  The deviceOn flag only affects the marshalled request, which the
script abstracts.  No retry of any kind is performed. -/
def Plug.SetDeviceInfoM {J : Type} (unmarshalSet : J → Option Bytes)
    (p : Plug) (deviceOn : Bool) (script : List (DevResp J)) :
    Except String Unit × Nat :=
  match p.session with
  | none => (.error "not logged in", 0)
  | some _ =>
    match script.headD (.error "no response") with
    | .error e => (.error ("request failed: " ++ e), 1)
    | .ok resp =>
      match (match resp.Result with
             | none => Except.ok ([] : Bytes)
             | some j =>
               match unmarshalSet j with
               | none => Except.error "failed to unmarshal JSON response"
               | some r => Except.ok r) with
      | .error e => (.error e, 1)
      | .ok _ =>
        if resp.ErrorCode ≠ 0 then
          (.error ("request failed: " ++ TapoStatus.errString resp.ErrorCode), 1)
        else (.ok (), 1)

/-- The device usage triples returned by get_device_usage. -/
structure DeviceUsage where
  TimeToday : Int
  TimePast7 : Int
  TimePast30 : Int
  PowerToday : Int
  PowerPast7 : Int
  PowerPast30 : Int
  SavedToday : Int
  SavedPast7 : Int
  SavedPast30 : Int
deriving DecidableEq

/-- The Go zero value of DeviceUsage. -/
def DeviceUsage.zero : DeviceUsage := ⟨0, 0, 0, 0, 0, 0, 0, 0, 0⟩

/-- The energy usage result returned by get_energy_usage. -/
structure EnergyUsage where
  TodayRuntime : Int
  MonthRuntime : Int
  TodayEnergy : Int
  MonthEnergy : Int
  LocalTime : Bytes
  CurrentPower : Int
deriving DecidableEq

/-- The Go zero value of EnergyUsage. -/
def EnergyUsage.zero : EnergyUsage := ⟨0, 0, 0, 0, [], 0⟩

/-- Model of Plug.GetDeviceUsage: fail when no session is established, issue
one request, unmarshal the result when present, reject a non-zero status.
No retry of any kind is performed. -/
def Plug.GetDeviceUsageM {J : Type} (unmarshalUsage : J → Option DeviceUsage)
    (p : Plug) (script : List (DevResp J)) : Except String DeviceUsage × Nat :=
  match p.session with
  | none => (.error "not logged in", 0)
  | some _ =>
    match script.headD (.error "no response") with
    | .error e => (.error ("request failed: " ++ e), 1)
    | .ok resp =>
      match (match resp.Result with
             | none => Except.ok DeviceUsage.zero
             | some j =>
               match unmarshalUsage j with
               | none => Except.error "failed to unmarshal JSON response"
               | some u => Except.ok u) with
      | .error e => (.error e, 1)
      | .ok usage =>
        if resp.ErrorCode ≠ 0 then
          (.error ("request failed: " ++ TapoStatus.errString resp.ErrorCode), 1)
        else (.ok usage, 1)

/-- Model of Plug.GetEnergyUsage, with the same shape as get_device_usage. -/
def Plug.GetEnergyUsageM {J : Type} (unmarshalEnergy : J → Option EnergyUsage)
    (p : Plug) (script : List (DevResp J)) : Except String EnergyUsage × Nat :=
  match p.session with
  | none => (.error "not logged in", 0)
  | some _ =>
    match script.headD (.error "no response") with
    | .error e => (.error ("request failed: " ++ e), 1)
    | .ok resp =>
      match (match resp.Result with
             | none => Except.ok EnergyUsage.zero
             | some j =>
               match unmarshalEnergy j with
               | none => Except.error "failed to unmarshal JSON response"
               | some u => Except.ok u) with
      | .error e => (.error e, 1)
      | .ok usage =>
        if resp.ErrorCode ≠ 0 then
          (.error ("request failed: " ++ TapoStatus.errString resp.ErrorCode), 1)
        else (.ok usage, 1)

/-- Model of Plug.On: set_device_info with device_on true. -/
def Plug.OnM {J : Type} (unmarshalSet : J → Option Bytes) (p : Plug)
    (script : List (DevResp J)) : Except String Unit × Nat :=
  Plug.SetDeviceInfoM unmarshalSet p true script

/-- Model of Plug.Off: set_device_info with device_on false. -/
def Plug.OffM {J : Type} (unmarshalSet : J → Option Bytes) (p : Plug)
    (script : List (DevResp J)) : Except String Unit × Nat :=
  Plug.SetDeviceInfoM unmarshalSet p false script

/-- Model of Plug.IsOn: get_device_info and project the on flag. -/
def Plug.IsOnM {J : Type} (unmarshalInfo : J → Option DeviceInfo) (p : Plug)
    (script : List (DevResp J)) : Except String Bool × Nat :=
  match Plug.GetDeviceInfoM unmarshalInfo p script with
  | (.error e, k) => (.error e, k)
  | (.ok info, k) => (.ok info.DeviceON, k)

/-- The observable outcomes of the network interactions that Plug.Handshake
may perform: the KLAP handshake result, the Passthrough handshake result, and
the login_device exchange over the Passthrough session (an error covers both
transport and JSON failures; otherwise the envelope code and the optional
result token). -/
structure HandshakeEnv where
  klapOutcome : Except String KlapSession
  ptOutcome : Except String PassthroughSession
  loginOutcome : Except String (Int × Option Bytes)

/-- Model of Plug.Handshake from the newest plug source file: when a session
is already present, return immediately with no network activity; otherwise
try KLAP first and on failure fall back to a Passthrough handshake followed
by a login_device step.  The third component counts the network interactions
performed. -/
def Plug.HandshakeM (p : Plug) (env : HandshakeEnv) :
    Plug × Except String Unit × Nat :=
  match p.session with
  | some _ => (p, .ok (), 0)
  | none =>
    match env.klapOutcome with
    | .ok ks => ({ p with session := some (.klap ks) }, .ok (), 1)
    | .error _ =>
      match env.ptOutcome with
      | .error e => (p, .error ("passthrough handshake failed: " ++ e), 2)
      | .ok ps =>
        match env.loginOutcome with
        | .error e => (p, .error ("request failed: " ++ e), 3)
        | .ok (code, tokenRes) =>
          if code ≠ 0 then
            (p, .error ("request failed: " ++ TapoStatus.errString code), 3)
          else if tokenRes.getD [] = [] then
            (p, .error "empty token returned by device", 3)
          else
            ({ p with session := some (.passthrough ps (tokenRes.getD [])) },
              .ok (), 3)

/-- C7 counterexample: applying the discovery obfuscation a second time, with
a fresh rolling key seeded at 0xAB, does not recover the plaintext: on the
two-byte input 0,0 it yields 0,171. -/
theorem discover_v1_xor_not_self_inverse :
    discoverV1Obfuscate (discoverV1Obfuscate [0, 0]) ≠ [0, 0] := by
  decide

/-- C7 amended: the XOR obfuscation of the v1 discovery request is not
self-inverse; it is inverted by the rolling-XOR decoder seeded at 0xAB whose
key tracks the previous obfuscated input byte: decoding the obfuscated bytes
yields the original plaintext for every input. -/
theorem discover_v1_xor_decode_inverse (l : Bytes) :
    discoverV1Deobfuscate (discoverV1Obfuscate l) = l :=
  xorRollDecode_xorRoll l 171

/-- C10: Plug.Handshake is idempotent once a session is established: with a
session present it returns success immediately, performs zero network
interactions, and leaves the plug (and its session object) unchanged. -/
theorem plug_handshake_idempotent (p : Plug) (env : HandshakeEnv) (s : SessionV)
    (hs : p.session = some s) :
    Plug.HandshakeM p env = (p, Except.ok (), 0) := by
  rcases p with ⟨ps, a, b⟩
  simp only at hs
  subst hs
  rfl

/-- C10 witness: a concrete plug with an established KLAP session. -/
theorem plug_handshake_idempotent_witness :
    Plug.HandshakeM
        { session := some (.klap ⟨[], 0, [], [], []⟩),
          retriesOnForbidden := 0, retriesOnCommunicationError := 0 }
        ⟨.error "down", .error "down", .error "down"⟩
      = ({ session := some (.klap ⟨[], 0, [], [], []⟩),
           retriesOnForbidden := 0, retriesOnCommunicationError := 0 },
          Except.ok (), 0) :=
  plug_handshake_idempotent _ _ _ rfl

/-- C8: before any successful handshake (no session), every typed plug
operation returns a not-logged-in error and issues zero requests to the
device. -/
theorem plug_ops_require_session {J : Type}
    (unmarshalInfo : J → Option DeviceInfo) (unmarshalSet : J → Option Bytes)
    (unmarshalUsage : J → Option DeviceUsage)
    (unmarshalEnergy : J → Option EnergyUsage)
    (p : Plug) (deviceOn : Bool) (script : List (DevResp J))
    (hs : p.session = none) :
    Plug.GetDeviceInfoM unmarshalInfo p script = (.error "not logged in", 0) ∧
    Plug.SetDeviceInfoM unmarshalSet p deviceOn script = (.error "not logged in", 0) ∧
    Plug.GetDeviceUsageM unmarshalUsage p script = (.error "not logged in", 0) ∧
    Plug.GetEnergyUsageM unmarshalEnergy p script = (.error "not logged in", 0) ∧
    Plug.OnM unmarshalSet p script = (.error "not logged in", 0) ∧
    Plug.OffM unmarshalSet p script = (.error "not logged in", 0) ∧
    Plug.IsOnM unmarshalInfo p script = (.error "not logged in", 0) := by
  rcases p with ⟨ps, a, b⟩
  simp only at hs
  subst hs
  exact ⟨rfl, rfl, rfl, rfl, rfl, rfl, rfl⟩

/-- C8 witness: the fresh plug produced by NewPlug has no session, and each
operation on it fails without consuming the device script. -/
theorem plug_ops_require_session_witness :
    Plug.IsOnM (J := Unit) (fun _ => some DeviceInfo.zero) NewPlug
        [.ok ⟨0, none⟩]
      = (.error "not logged in", 0) :=
  (plug_ops_require_session (fun _ => some DeviceInfo.zero)
    (fun _ => some []) (fun _ => some DeviceUsage.zero)
    (fun _ => some EnergyUsage.zero) NewPlug true [.ok ⟨0, none⟩] rfl).2.2.2.2.2.2

/-- Reduction of handshake1 when the cookie scan fails. -/
theorem handshake1_scan_error (sha1 sha256 : Bytes → Bytes) (s : KlapSession)
    (u pw ls body : Bytes) (cookies : List Cookie) (now : Nat) (err : String)
    (hscan : scanCookies now cookies (strBytes "", 0) = .error err) :
    handshake1 sha1 sha256 s u pw ls (some (body, cookies)) now
      = (s, some err) := by
  simp only [handshake1]
  rw [hscan]

/-- Reduction of handshake1 when the cookie scan succeeds. -/
theorem handshake1_scan_ok (sha1 sha256 : Bytes → Bytes) (s : KlapSession)
    (u pw ls body : Bytes) (cookies : List Cookie) (now : Nat)
    (sid : Bytes) (exp : Nat)
    (hscan : scanCookies now cookies (strBytes "", 0) = .ok (sid, exp)) :
    handshake1 sha1 sha256 s u pw ls (some (body, cookies)) now
      = if sha256 (ls ++ body.take 16 ++ sha256 (sha1 u ++ sha1 pw))
            = body.drop 16 then
          ({ SessionID := sid, Expiry := exp, LocalSeed := ls,
             RemoteSeed := body.take 16,
             LocalAuthHash := sha256 (sha1 u ++ sha1 pw) }, none)
        else (s, some "authentication failed") := by
  simp only [handshake1]
  rw [hscan]

/-- C9: whenever KLAP handshake round 1 fails, from a transport error, a
malformed TIMEOUT cookie, or a server-hash mismatch, the session fields
(SessionID, Expiry, LocalSeed, RemoteSeed, LocalAuthHash) are left unchanged;
they are assigned only after the hash verification has passed. -/
theorem klap_handshake1_frame (sha1 sha256 : Bytes → Bytes) (s : KlapSession)
    (u pw ls : Bytes) (resp : Option (Bytes × List Cookie)) (now : Nat)
    (e : String)
    (herr : (handshake1 sha1 sha256 s u pw ls resp now).2 = some e) :
    (handshake1 sha1 sha256 s u pw ls resp now).1 = s := by
  rcases resp with _ | ⟨body, cookies⟩
  · rfl
  · rcases hscan : scanCookies now cookies (strBytes "", 0) with err | pair
    · rw [handshake1_scan_error sha1 sha256 s u pw ls body cookies now err hscan]
    · rcases pair with ⟨sid, exp⟩
      rw [handshake1_scan_ok sha1 sha256 s u pw ls body cookies now sid exp hscan]
        at herr ⊢
      by_cases hcond :
          sha256 (ls ++ body.take 16 ++ sha256 (sha1 u ++ sha1 pw)) = body.drop 16
      · rw [if_pos hcond] at herr
        simp at herr
      · rw [if_neg hcond]

/-- C9 witness: a transport failure leaves a concrete session unchanged. -/
theorem klap_handshake1_frame_witness :
    (handshake1 (fun x => x) (fun x => x) ⟨[1], 2, [3], [4], [5]⟩
        [] [] [] none 0).2 = some "http post failed" ∧
    (handshake1 (fun x => x) (fun x => x) ⟨[1], 2, [3], [4], [5]⟩
        [] [] [] none 0).1 = ⟨[1], 2, [3], [4], [5]⟩ :=
  ⟨rfl, klap_handshake1_frame (fun x => x) (fun x => x) ⟨[1], 2, [3], [4], [5]⟩
    [] [] [] none 0 "http post failed" rfl⟩

/-- C2: given a 48-byte round-1 response body remote_seed followed by
server_hash and well-formed cookies, the KLAP handshake round 1 succeeds if
and only if SHA-256 of local_seed, remote_seed and the local auth hash
SHA-256(SHA-1(username) plus SHA-1(password)) equals the server hash byte for
byte; on a mismatch it returns the authentication-failed error. -/
theorem klap_handshake1_auth (sha1 sha256 : Bytes → Bytes) (s : KlapSession)
    (u pw ls body : Bytes) (cookies : List Cookie) (now : Nat)
    (sid : Bytes) (exp : Nat)
    (hscan : scanCookies now cookies (strBytes "", 0) = .ok (sid, exp))
    (hlen : body.length = 48) :
    ((handshake1 sha1 sha256 s u pw ls (some (body, cookies)) now).2 = none ↔
      sha256 (ls ++ body.take 16 ++ sha256 (sha1 u ++ sha1 pw)) = body.drop 16) ∧
    (sha256 (ls ++ body.take 16 ++ sha256 (sha1 u ++ sha1 pw)) ≠ body.drop 16 →
      (handshake1 sha1 sha256 s u pw ls (some (body, cookies)) now).2
        = some "authentication failed") := by
  rw [handshake1_scan_ok sha1 sha256 s u pw ls body cookies now sid exp hscan]
  by_cases hcond :
      sha256 (ls ++ body.take 16 ++ sha256 (sha1 u ++ sha1 pw)) = body.drop 16
  · rw [if_pos hcond]
    exact ⟨⟨fun _ => hcond, fun _ => rfl⟩, fun hne => absurd hcond hne⟩
  · rw [if_neg hcond]
    exact ⟨⟨fun h => by simp at h, fun h => absurd h hcond⟩, fun _ => rfl⟩

/-- C2 witness: an all-zero 48-byte response under a constant hash function
passes the verification, and the handshake succeeds. -/
theorem klap_handshake1_auth_witness :
    (handshake1 (fun _ => []) (fun _ => List.replicate 32 0) ⟨[], 0, [], [], []⟩
        [] [] [] (some (List.replicate 48 0, [])) 0).2 = none :=
  ((klap_handshake1_auth (fun _ => []) (fun _ => List.replicate 32 0)
      ⟨[], 0, [], [], []⟩ [] [] [] (List.replicate 48 0) [] 0 (strBytes "") 0
      rfl (by decide)).1).mpr (by decide)

/-- C5: in the Passthrough handshake, a decrypted session key that is not
exactly 32 bytes aborts with an error; with a 32-byte key and no TP_SESSIONID
cookie the handshake fails; and with a 32-byte key and a TP_SESSIONID cookie
the AES key becomes the first 16 bytes, the IV the last 16, and the verbatim
cookie pair is stored. -/
theorem passthrough_handshake_key_iv (s : PassthroughSession)
    (sessionKey : Bytes) (cookies : List Cookie) :
    (sessionKey.length ≠ 32 →
      (PassthroughSession.handshakeFinish s sessionKey cookies).2
        = some "session key length is not 32 bytes") ∧
    (sessionKey.length = 32 → findSessionCookie cookies = none →
      (PassthroughSession.handshakeFinish s sessionKey cookies).2
        = some "no TP_SESSIONID cookie found in HTTP response") ∧
    (∀ v, sessionKey.length = 32 → findSessionCookie cookies = some v →
      PassthroughSession.handshakeFinish s sessionKey cookies
        = ({ Key := sessionKey.take 16,
             ID := strBytes "TP_SESSIONID=" ++ v,
             IV := sessionKey.drop 16 }, none)) := by
  refine ⟨?_, ?_, ?_⟩
  · intro hne
    unfold PassthroughSession.handshakeFinish
    rw [if_pos hne]
  · intro h32 hnone
    unfold PassthroughSession.handshakeFinish
    rw [if_neg (by simp [h32]), hnone]
  · intro v h32 hsome
    unfold PassthroughSession.handshakeFinish
    rw [if_neg (by simp [h32]), hsome]

/-- C5 witness: a 32-byte key and a present TP_SESSIONID cookie yield the
first half as key and second half as IV. -/
theorem passthrough_handshake_key_iv_witness :
    PassthroughSession.handshakeFinish ⟨[], [], []⟩
        (List.replicate 16 1 ++ List.replicate 16 2)
        [⟨strBytes "TP_SESSIONID", strBytes "abc"⟩]
      = ({ Key := List.replicate 16 1,
           ID := strBytes "TP_SESSIONID=" ++ strBytes "abc",
           IV := List.replicate 16 2 }, none) := by
  have h := (passthrough_handshake_key_iv ⟨[], [], []⟩
    (List.replicate 16 1 ++ List.replicate 16 2)
    [⟨strBytes "TP_SESSIONID", strBytes "abc"⟩]).2.2
    (strBytes "abc") (by decide) (by decide)
  rw [h]
  refine congrArg (fun z => (z, none)) ?_
  refine congrArg₂ (fun a b => PassthroughSession.mk a b _) ?_ ?_ <;> decide

/-- C4: the login_device request has its username field equal to the base64
of the lowercase hex of SHA-1 of the username and its password field equal to
the base64 of the raw password (the base64 decodes back to the full
password); the warning flag is raised exactly when the password exceeds 8
characters yet the request is still built with the full password. -/
theorem login_device_request_fields (sha1 : Bytes → Bytes) (u pw : Bytes)
    (now : Nat) (hpw : ∀ b ∈ pw, b < 256) :
    (NewLoginDeviceRequest sha1 u pw now).2.Username
        = b64Encode (hexLower (sha1 u)) ∧
    (NewLoginDeviceRequest sha1 u pw now).2.Password = b64Encode pw ∧
    b64Decode (NewLoginDeviceRequest sha1 u pw now).2.Password = some pw ∧
    ((NewLoginDeviceRequest sha1 u pw now).1 = true ↔ 8 < pw.length) := by
  refine ⟨rfl, rfl, ?_, ?_⟩
  · exact b64_roundtrip pw hpw
  · simp [NewLoginDeviceRequest]

/-- C4 witness: a 9-character password raises the warning, and both fields
are built in full. -/
theorem login_device_request_fields_witness :
    (NewLoginDeviceRequest (fun x => x) (strBytes "u") (strBytes "123456789")
        0).1 = true ∧
    b64Decode (NewLoginDeviceRequest (fun x => x) (strBytes "u")
        (strBytes "123456789") 0).2.Password = some (strBytes "123456789") :=
  ⟨(login_device_request_fields (fun x => x) (strBytes "u")
      (strBytes "123456789") 0 (by decide)).2.2.2.mpr (by decide),
   (login_device_request_fields (fun x => x) (strBytes "u")
      (strBytes "123456789") 0 (by decide)).2.2.1⟩

/-- C3 counterexample: a plug configured with retries-on-forbidden 1 whose
device answers get_device_info with error code 9999 and then success is not
retried: the operation fails with the session-timeout status after a single
request, and the second scripted response is never consumed. -/
theorem plug_retry_counterexample :
    Plug.GetDeviceInfoM (J := Unit) (fun _ => some DeviceInfo.zero)
        (OptionRetryOnForbidden 1
          { session := some (.klap ⟨[], 0, [], [], []⟩),
            retriesOnForbidden := 0, retriesOnCommunicationError := 0 })
        [.ok ⟨9999, none⟩, .ok ⟨0, some ()⟩]
      = (.error "request failed: Session timeout", 1) := by
  rfl

/-- C3 amended: the plug facade stores the two retry counters but no
operation consults them: get_device_info behaves identically for every
counter value, never issues more than one request, and a response with error
code 9999 makes it fail immediately with the session-timeout status. -/
theorem plug_retry_counters_unused {J : Type}
    (unmarshalInfo : J → Option DeviceInfo) (p : Plug)
    (script : List (DevResp J)) (r1 r2 : Nat) :
    Plug.GetDeviceInfoM unmarshalInfo
        (OptionRetryOnForbidden r1 (OptionRetryOnCommunicationError r2 p)) script
      = Plug.GetDeviceInfoM unmarshalInfo p script ∧
    (Plug.GetDeviceInfoM unmarshalInfo p script).2 ≤ 1 ∧
    (p.session ≠ none →
      script.headD (.error "no response") = .ok ⟨9999, none⟩ →
      (Plug.GetDeviceInfoM unmarshalInfo p script).1
        = .error "request failed: Session timeout") := by
  rcases p with ⟨ps, a, b⟩
  cases ps with
  | none =>
    refine ⟨rfl, by simp [Plug.GetDeviceInfoM], ?_⟩
    intro hcon
    simp at hcon
  | some sv =>
    refine ⟨rfl, ?_, ?_⟩
    · simp only [Plug.GetDeviceInfoM]
      repeat' split
      all_goals simp
    · intro _ hhead
      simp only [Plug.GetDeviceInfoM, hhead]
      rfl

/-- C3 amended witness: with nonzero counters and a 9999 response, the call
fails with the session-timeout status. -/
theorem plug_retry_counters_unused_witness :
    (Plug.GetDeviceInfoM (J := Unit) (fun _ => some DeviceInfo.zero)
        { session := some (.klap ⟨[], 0, [], [], []⟩),
          retriesOnForbidden := 3, retriesOnCommunicationError := 2 }
        [.ok ⟨9999, none⟩]).1
      = .error "request failed: Session timeout" :=
  (plug_retry_counters_unused (J := Unit) (fun _ => some DeviceInfo.zero)
    { session := some (.klap ⟨[], 0, [], [], []⟩),
      retriesOnForbidden := 3, retriesOnCommunicationError := 2 }
    [.ok ⟨9999, none⟩] 0 0).2.2 (by simp) rfl

/-- C6: for every byte sequence R, a Passthrough session with a 16-byte IV
and an inverse pair of 16-byte block ciphers (the AES-128 instance of the
session key), decrypting the encryption of R (pad, CBC-encrypt,
base64-encode, strip CRLF, then base64-decode, CBC-decrypt, unpad) returns R:
encrypt-then-decrypt is the identity. -/
theorem passthrough_encrypt_decrypt_id (E D : Bytes → Bytes)
    (s : PassthroughSession) (R : Bytes)
    (hED : ∀ b : Bytes, b.length = 16 → (∀ x ∈ b, x < 256) → D (E b) = b)
    (hElen : ∀ b : Bytes, b.length = 16 → (∀ x ∈ b, x < 256) → (E b).length = 16)
    (hEbytes : ∀ b : Bytes, b.length = 16 → (∀ x ∈ b, x < 256) → ∀ x ∈ E b, x < 256)
    (hIV : s.IV.length = 16) (hIVb : ∀ x ∈ s.IV, x < 256)
    (hR : ∀ x ∈ R, x < 256) :
    PassthroughSession.decryptResponse D s
        (PassthroughSession.encryptRequest E s R) = some R := by
  unfold PassthroughSession.encryptRequest PassthroughSession.decryptResponse
  have hpadmod := pkcs7Pad_length_mod R
  have hpadb := pkcs7Pad_bytes_lt R hR
  have hcipherb := cbcEncrypt_bytes_lt E hElen hEbytes (pkcs7Pad R 16) s.IV
    hpadmod hpadb hIV hIVb
  rw [removeCRLF_of_no_cr _ (b64Encode_no_cr _ hcipherb)]
  rw [b64_roundtrip _ hcipherb]
  rw [Option.some_bind]
  rw [cbc_roundtrip E D hED hElen hEbytes _ _ hpadmod hpadb hIV hIVb]
  exact pkcs7_roundtrip R

/-- C6 witness: the identity block cipher pair on an all-zero IV round-trips
a concrete three-byte request. -/
theorem passthrough_encrypt_decrypt_id_witness :
    PassthroughSession.decryptResponse (fun b => b)
        ⟨List.replicate 16 0, List.replicate 16 0, []⟩
        (PassthroughSession.encryptRequest (fun b => b)
          ⟨List.replicate 16 0, List.replicate 16 0, []⟩ [1, 2, 3])
      = some [1, 2, 3] :=
  passthrough_encrypt_decrypt_id (fun b => b) (fun b => b)
    ⟨List.replicate 16 0, List.replicate 16 0, []⟩ [1, 2, 3]
    (fun _ _ _ => rfl) (fun _ h _ => h) (fun _ _ hb => hb)
    (by decide) (by decide) (by decide)

/-- C1: with the spec-modelled KLAP key schedule (the repository ships the
encrypt and decrypt primitives stubbed), the request body for payload P at
sequence number n is the tag T followed by the ciphertext C, where C is the
CBC encryption of the PKCS#7-padded P under the derived key and the
sequence-indexed IV and T is SHA-256 of the signature key, the big-endian
sequence number and C; and KlapSession.Request decrypts a response body of
the same layout with the same key and IV and unpads it: a device that
answers with the encryption of Q makes the request return Q. -/
theorem klap_request_spec_framing (sha256 E D : Bytes → Bytes)
    (ls rs lah : Bytes) (n : Nat) (P Q : Bytes)
    (hshaLen : ∀ x : Bytes, (sha256 x).length = 32)
    (hshaBytes : ∀ x : Bytes, ∀ b ∈ sha256 x, b < 256)
    (hED : ∀ b : Bytes, b.length = 16 → (∀ x ∈ b, x < 256) → D (E b) = b)
    (hElen : ∀ b : Bytes, b.length = 16 → (∀ x ∈ b, x < 256) → (E b).length = 16)
    (hEbytes : ∀ b : Bytes, b.length = 16 → (∀ x ∈ b, x < 256) → ∀ x ∈ E b, x < 256)
    (hQ : ∀ x ∈ Q, x < 256) :
    klapEncrypt sha256 E ls rs lah n P
      = sha256 ((sha256 (strBytes "ldk" ++ ls ++ rs ++ lah)).take 28 ++ be32 n ++
          cbcEncrypt E ((sha256 (strBytes "iv" ++ ls ++ rs ++ lah)).take 12 ++ be32 n)
            (pkcs7Pad P 16)) ++
        cbcEncrypt E ((sha256 (strBytes "iv" ++ ls ++ rs ++ lah)).take 12 ++ be32 n)
          (pkcs7Pad P 16) ∧
    KlapSession.RequestM sha256 E D ls rs lah n P
        (fun _ => some (200, klapEncrypt sha256 E ls rs lah n Q)) = .ok Q := by
  constructor
  · rfl
  · have hivlen : (klapIvFor sha256 ls rs lah n).length = 16 := by
      simp [klapIvFor, klapIvSeed, be32, List.length_take, hshaLen]
    have hivb : ∀ x ∈ klapIvFor sha256 ls rs lah n, x < 256 := by
      intro x hx
      simp only [klapIvFor, List.mem_append] at hx
      rcases hx with hx | hx
      · exact hshaBytes _ x (List.mem_of_mem_take hx)
      · simp only [be32, List.mem_cons, List.not_mem_nil, or_false] at hx
        rcases hx with h | h | h | h <;> omega
    have hpadmod := pkcs7Pad_length_mod Q
    have hpadb := pkcs7Pad_bytes_lt Q hQ
    have hcbc := cbc_roundtrip E D hED hElen hEbytes (pkcs7Pad Q 16)
      (klapIvFor sha256 ls rs lah n) hpadmod hpadb hivlen hivb
    have htake : (klapEncrypt sha256 E ls rs lah n Q).take 32
        = sha256 (klapSigKey sha256 ls rs lah ++ be32 n ++
            cbcEncrypt E (klapIvFor sha256 ls rs lah n) (pkcs7Pad Q 16)) := by
      unfold klapEncrypt
      exact List.take_left' (hshaLen _)
    have hdrop : (klapEncrypt sha256 E ls rs lah n Q).drop 32
        = cbcEncrypt E (klapIvFor sha256 ls rs lah n) (pkcs7Pad Q 16) := by
      unfold klapEncrypt
      exact List.drop_left' (hshaLen _)
    have hdec : klapDecrypt sha256 D ls rs lah n
        (klapEncrypt sha256 E ls rs lah n Q) = some Q := by
      unfold klapDecrypt
      rw [htake, hdrop, if_pos rfl, hcbc]
      exact pkcs7_roundtrip Q
    show (match klapDecrypt sha256 D ls rs lah n
        (klapEncrypt sha256 E ls rs lah n Q) with
      | none => Except.error "failed to decrypt payload"
      | some d => Except.ok d) = .ok Q
    rw [hdec]

/-- C1 witness: a constant-length hash and the identity block cipher pair
round-trip a concrete payload through the KLAP request. -/
theorem klap_request_spec_framing_witness :
    KlapSession.RequestM (fun x => List.replicate 32 (x.length % 256))
        (fun b => b) (fun b => b) [] [] [] 1 [1]
        (fun _ => some (200,
          klapEncrypt (fun x => List.replicate 32 (x.length % 256))
            (fun b => b) [] [] [] 1 [2, 3]))
      = .ok [2, 3] :=
  (klap_request_spec_framing (fun x => List.replicate 32 (x.length % 256))
    (fun b => b) (fun b => b) [] [] [] 1 [1] [2, 3]
    (fun _ => by simp) (fun x b hb => by simp at hb; omega)
    (fun _ _ _ => rfl) (fun _ h _ => h) (fun _ _ hb => hb)
    (by decide)).2

end Tapo
